import Mathlib

/-!
Shallow embedding of the reconciliation-and-refresh core of
LavaAnimeLibServerV2 (`src/class/anime/manager.ts`, `src/class/library/…`
`LibraryReader`, and `src/class/user/manager.ts`).

Machine timestamps are modelled as `Int` milliseconds since the Unix epoch
(the value of a JavaScript `Date`); a nullable timestamp is `Option Int`.
Fallible store and network calls return an `Except` outcome *paired with*
the (possibly partially mutated) store state, since the program performs no
rollback: mutations made before an exception persist.
-/

set_option autoImplicit false

namespace LavaAnime

/-- A persisted `Anime` record (CatalogEntry).  Field set follows the
columns written by `AnimeManager.applyLibraryScraperResult`. -/
structure Anime where
  id : Nat
  name : String
  originalName : String
  bdrip : Bool
  nsfw : Bool
  platform : String
  date : Int
  releaseYear : Int
  releaseSeason : String
  region : String
  deriving DecidableEq

/-- A persisted `AnimeSiteLink` record (SiteLink): composite natural key
`(siteId, siteType)`, an owning anime (`animeId` foreign key, set by the
`sites` relation of `Anime`), and a nullable `lastUpdate` timestamp. -/
structure Site where
  siteId : String
  siteType : String
  animeId : Nat
  lastUpdate : Option Int
  deriving DecidableEq

/-- A persisted `LibFile` record: a scanned path inside a library, an
optional owning anime and a `removed` soft-delete flag. -/
structure LibFile where
  id : Nat
  libraryId : Nat
  path : String
  name : String
  animeId : Option Nat
  removed : Bool
  deriving DecidableEq

/-- The relevant slice of the database: anime, site-link and file tables,
plus the next auto-increment anime id. -/
structure DB where
  animes : List Anime
  sites : List Site
  libFiles : List LibFile
  nextAnimeId : Nat
  deriving DecidableEq

/-- Natural key payload of one proposed site link in a scrape result:
the code spreads it both into the `siteId_siteType` unique key and into
the `create` data of `connectOrCreate`. -/
structure SiteLinkKey where
  siteId : String
  siteType : String
  deriving DecidableEq

/-- A scraped file object; the code only reads its `id`. -/
structure FileRef where
  id : Nat
  deriving DecidableEq

/-- The proposed anime payload of a `newAnime` item, including its
proposed site links (`thisResult.anime.sites`). -/
structure AnimePayload where
  name : String
  originalName : String
  bdrip : Bool
  nsfw : Bool
  platform : String
  date : Int
  releaseYear : Int
  releaseSeason : String
  region : String
  sites : List SiteLinkKey
  deriving DecidableEq

/-- One item of `LibraryScrapeResult.newAnime`. -/
structure NewAnimeItem where
  anime : AnimePayload
  files : List FileRef
  deriving DecidableEq

/-- The already-persisted anime referenced by an `existingAnime` item. -/
structure ExistingAnimeRef where
  id : Nat
  name : String
  deriving DecidableEq

/-- One item of `LibraryScrapeResult.existingAnime`. -/
structure ExistingAnimeItem where
  anime : ExistingAnimeRef
  files : List FileRef
  deriving DecidableEq

/-- The scrape result consumed by `applyLibraryScraperResult`. -/
structure LibraryScrapeResult where
  newAnime : List NewAnimeItem
  existingAnime : List ExistingAnimeItem
  deriving DecidableEq

/-- The three Prisma store calls issued by `applyLibraryScraperResult`,
abstracted as an interface: each call returns an outcome together with the
state after the call (a failing call may still have mutated nothing or
part of the state; the program never rolls back). -/
structure StoreOps where
  animeCreate : AnimePayload → DB → Except String Nat × DB
  connectOrCreateSite : Nat → SiteLinkKey → DB → Except String Unit × DB
  libFileUpdateMany : List Nat → Nat → DB → Except String Nat × DB

/-- Does site `s` match the composite unique key `siteId_siteType`? -/
def keyMatch (k : SiteLinkKey) (s : Site) : Bool :=
  s.siteId == k.siteId && s.siteType == k.siteType

/-- Modelled from the spec: the entity store collaborator behind
`usePrisma.anime.create` (§6 `createCatalogEntry(fields) ->
CatalogEntry | DuplicateKeyError`).  The duplicate key is modelled as a
uniqueness conflict on the display name; on success a fresh id is
assigned. -/
def refAnimeCreate (p : AnimePayload) (db : DB) : Except String Nat × DB :=
  if db.animes.any (fun a => a.name == p.name) then
    (.error "P2002 unique constraint failed", db)
  else
    (.ok db.nextAnimeId,
      { db with
        animes := db.animes ++
          [{ id := db.nextAnimeId, name := p.name,
             originalName := p.originalName, bdrip := p.bdrip,
             nsfw := p.nsfw, platform := p.platform, date := p.date,
             releaseYear := p.releaseYear,
             releaseSeason := p.releaseSeason, region := p.region }],
        nextAnimeId := db.nextAnimeId + 1 })

/-- The effect of connecting a matching site to anime `aid`: a site
matching the unique key gets its `animeId` foreign key set to `aid`. -/
def connectSite (k : SiteLinkKey) (aid : Nat) (s : Site) : Site :=
  if keyMatch k s then { s with animeId := aid } else s

/-- Modelled from the spec: the store call
`usePrisma.anime.update(\x7bwhere: id, data: \x7bsites:
\x7bconnectOrCreate: …\x7d\x7d\x7d)`.  Prisma's `connectOrCreate` on a
to-many relation looks the child up by the unique key: if it exists it is
*connected* — its foreign key `animeId` is set to the parent being
updated — and otherwise it is created with that foreign key.  Updating a
non-existent parent fails with Prisma error P2025. -/
def refConnectOrCreateSite (aid : Nat) (k : SiteLinkKey) (db : DB) :
    Except String Unit × DB :=
  if db.animes.any (fun a => a.id == aid) then
    match db.sites.find? (keyMatch k) with
    | some _ =>
      (.ok (), { db with sites := db.sites.map (connectSite k aid) })
    | none =>
      (.ok (),
        { db with
          sites := db.sites ++
            [{ siteId := k.siteId, siteType := k.siteType,
               animeId := aid, lastUpdate := none }] })
  else (.error "P2025 record to update not found", db)

/-- Modelled from the spec: `usePrisma.libFile.updateMany(\x7bwhere: \x7bid:
\x7bin: ids\x7d\x7d, data: \x7banimeId\x7d\x7d)` (§6 `bulkReassignFiles`):
sets `animeId` on every file whose id is in the set and reports the number
of matched rows. -/
def refLibFileUpdateMany (ids : List Nat) (aid : Nat) (db : DB) :
    Except String Nat × DB :=
  (.ok (db.libFiles.filter (fun f => ids.contains f.id)).length,
    { db with
      libFiles := db.libFiles.map
        (fun f => if ids.contains f.id then { f with animeId := some aid } else f) })

/-- The reference store: the three modelled Prisma calls. -/
def refOps : StoreOps :=
  { animeCreate := refAnimeCreate
    connectOrCreateSite := refConnectOrCreateSite
    libFileUpdateMany := refLibFileUpdateMany }

/-- The inner `for (const siteLink of thisResult.anime.sites)` loop of
`applyLibraryScraperResult`: sequential attach, and — as in the source,
which has no try/catch inside this loop — the first failing attach aborts
the loop, the exception escaping with the state reached so far. -/
def attachSites (ops : StoreOps) (aid : Nat) :
    List SiteLinkKey → DB → Except String Unit × DB
  | [], db => (.ok (), db)
  | l :: rest, db =>
    match ops.connectOrCreateSite aid l db with
    | (.ok _, db') => attachSites ops aid rest db'
    | (.error e, db') => (.error e, db')

/-- The body of the `try` block for one `newAnime` item: create the anime,
attach its site links, then bulk-associate its files.  Any exception
escapes with the state reached at the point of failure (no rollback). -/
def applyNewAnimeItem (ops : StoreOps) (item : NewAnimeItem) (db : DB) :
    Except String Unit × DB :=
  match ops.animeCreate item.anime db with
  | (.error e, db') => (.error e, db')
  | (.ok aid, db') =>
    match attachSites ops aid item.anime.sites db' with
    | (.error e, db'') => (.error e, db'')
    | (.ok _, db'') =>
      match ops.libFileUpdateMany (item.files.map FileRef.id) aid db'' with
      | (.error e, db₃) => (.error e, db₃)
      | (.ok _, db₃) => (.ok (), db₃)

/-- The `for (const thisResult of newAnime)` loop: each item runs inside
`try \x7b … \x7d catch \x7b logger.error(…) \x7d`, so the item's outcome is
discarded (only logged) and the loop continues from the reached state. -/
def applyNewAnime (ops : StoreOps) (items : List NewAnimeItem) (db : DB) : DB :=
  items.foldl (fun db item => (applyNewAnimeItem ops item db).2) db

/-- The body of the `try` block for one `existingAnime` item: bulk file
association targeting the existing anime. -/
def applyExistingAnimeItem (ops : StoreOps) (item : ExistingAnimeItem)
    (db : DB) : Except String Unit × DB :=
  match ops.libFileUpdateMany (item.files.map FileRef.id) item.anime.id db with
  | (.error e, db') => (.error e, db')
  | (.ok _, db') => (.ok (), db')

/-- The `for (const thisResult of existingAnime)` loop, with its own
per-item try/catch. -/
def applyExistingAnime (ops : StoreOps) (items : List ExistingAnimeItem)
    (db : DB) : DB :=
  items.foldl (fun db item => (applyExistingAnimeItem ops item db).2) db

/-- `AnimeManager.applyLibraryScraperResult`: process all `newAnime`
items, then all `existingAnime` items. -/
def applyLibraryScraperResult (ops : StoreOps)
    (result : LibraryScrapeResult) (db : DB) : DB :=
  applyExistingAnime ops result.existingAnime
    (applyNewAnime ops result.newAnime db)

/-! ### Staleness scanner (`AnimeManager.updateAllInfo`) -/

/-- The Prisma staleness predicate of the `findMany` query:
`OR: [\x7blastUpdate: \x7blte: before\x7d\x7d, \x7blastUpdate: null\x7d]`.
In store semantics `lte` never matches a null column; the explicit
`lastUpdate: null` branch matches it. -/
def siteStaleDB (before : Int) (s : Site) : Bool :=
  match s.lastUpdate with
  | some t => decide (t ≤ before)
  | none => true

/-- The `sites` relation of one anime (`include: \x7bsites: true\x7d`). -/
def sitesOf (db : DB) (aid : Nat) : List Site :=
  db.sites.filter (fun s => s.animeId == aid)

/-- The `usePrisma.anime.findMany` query of `updateAllInfo`: every anime
having at least one site matching the staleness predicate, each paired
with all of its sites. -/
def animeNeedToUpdate (db : DB) (before : Int) : List (Anime × List Site) :=
  (db.animes.filter (fun a => (sitesOf db a.id).any (siteStaleDB before))).map
    (fun a => (a, sitesOf db a.id))

/-- The in-memory refilter `site.lastUpdate <= before` of `updateAllInfo`.
This is a JavaScript relational comparison on `Date | null`: both sides
are coerced to numbers, and `null` coerces to `0`, so a never-updated
site passes exactly when `0 ≤ before`. -/
def jsOutdated (before : Int) (s : Site) : Bool :=
  decide (s.lastUpdate.getD 0 ≤ before)

/-- `allSitesOutdated`: flatten the queried anime to the individual sites
passing the in-memory refilter. -/
def allSitesOutdated (db : DB) (before : Int) : List Site :=
  (animeNeedToUpdate db before).flatMap (fun p => p.2.filter (jsOutdated before))

/-- A Site Updater Strategy's `updateRelationAnimes` operation: given the
external `siteId`, it mutates the store and may fail; on failure the
state reached so far persists. -/
def Updater : Type :=
  String → DB → Except String Unit × DB

/-- `AnimeManager.getInfoUpdater`: returns the Bangumi updater for the
`"Bangumi"` site type and `undefined` (here `none`) otherwise.  The
`BangumiAnimeInfoUpdater` implementation lives outside this core, so the
embedding takes it as the parameter `bangumi`. -/
def getInfoUpdater (bangumi : Updater) (siteType : String) : Option Updater :=
  if siteType = "Bangumi" then some bangumi else none

/-- The dispatch loop `for (const site of allSitesOutdated)`.  The loop
body has no try/catch: when `getInfoUpdater` returned `undefined`, the
call `updater.updateRelationAnimes(site.siteId)` raises a `TypeError`
that escapes the scan, and an exception thrown by the updater itself
likewise escapes, in both cases leaving the remaining sites
undispatched. -/
def dispatchLoop (bangumi : Updater) :
    List Site → DB → Except String Unit × DB
  | [], db => (.ok (), db)
  | s :: rest, db =>
    match getInfoUpdater bangumi s.siteType with
    | none =>
      (.error "TypeError: cannot read updateRelationAnimes of undefined", db)
    | some u =>
      match u s.siteId db with
      | (.ok _, db') => dispatchLoop bangumi rest db'
      | (.error e, db') => (.error e, db')

/-- `AnimeManager.updateAllInfo before`: query, refilter, dispatch. -/
def updateAllInfo (bangumi : Updater) (before : Int) (db : DB) :
    Except String Unit × DB :=
  dispatchLoop bangumi (allSitesOutdated db before) db

/-! ### User manager (`UserManager.changePassword`) -/

/-- Errors surfaced by the Prisma client: a
`PrismaClientKnownRequestError` carrying its `code`, or any other
thrown value. -/
inductive PrismaError where
  | known (code : String)
  | other (msg : String)
  deriving DecidableEq

/-- The application errors `changePassword` can throw. -/
inductive UserError where
  | UserPasswordBadError
  | UserNotFoundError
  deriving DecidableEq

/-- Modelled from the spec: `UserValidator.isSecurePassword` is not under
`src/`; modelled from the error message used at its call sites — the
password must contain a letter and have length 7–64. -/
def isSecurePassword (p : String) : Bool :=
  decide (7 ≤ p.length) && decide (p.length ≤ 64) && p.data.any Char.isAlpha

/-- The `data` written by the `usePrisma.user.update` call of
`changePassword`. -/
structure UserUpdateData where
  encryption : String
  password : String
  deriving DecidableEq

/-- `UserManager.changePassword`: validate the new password, hash it
(the hashing module is outside this core and is taken as the parameter
`hash`), then update the user row.  The catch block rethrows only a
known request error with code `"P2025"` (as `UserNotFoundError`); every
other store error is swallowed and the function returns normally. -/
def changePassword (update : Nat → UserUpdateData → Except PrismaError Unit)
    (hash : String → String) (userId : Nat) (newPassword : String) :
    Except UserError Unit :=
  if isSecurePassword newPassword = false then
    .error .UserPasswordBadError
  else
    match update userId { encryption := "Sha256", password := hash newPassword } with
    | .ok _ => .ok ()
    | .error (.known code) =>
      if code == "P2025" then .error .UserNotFoundError else .ok ()
    | .error (.other _) => .ok ()

/-! ### Library reader (`LibraryReader`) -/

/-- `LibraryReader.getFile`: `findUnique` on the `uniqueFileInLib` key
`(libraryId, path, name)` — the key fields coming from
`nodePath.parse(path)`, taken here as the parameter `parse` returning
`(dir, base)` — further filtered by `removed: false`. -/
def getFile (db : List LibFile) (libId : Nat)
    (parse : String → String × String) (path : String) : Option LibFile :=
  db.find? (fun f =>
    f.libraryId == libId && f.path == (parse path).1 &&
      f.name == (parse path).2 && f.removed == false)

/-- `LibraryReader.getFirstSubFiles`: `findMany` on the reader's library,
non-removed, with `path` equal to the normalized input
(`nodePath.join(path)`, taken as the parameter `norm`). -/
def getFirstSubFiles (db : List LibFile) (libId : Nat)
    (norm : String → String) (path : String) : List LibFile :=
  db.filter (fun f =>
    f.libraryId == libId && f.removed == false && f.path == norm path)

/-- `LibraryReader.getFirstSubFilesWithNoAnime`: as `getFirstSubFiles`,
additionally requiring `animeId: null`. -/
def getFirstSubFilesWithNoAnime (db : List LibFile) (libId : Nat)
    (norm : String → String) (path : String) : List LibFile :=
  db.filter (fun f =>
    f.libraryId == libId && f.removed == false && f.path == norm path &&
      f.animeId == none)

/-- `LibraryReader.getAllSubFiles`: as `getFirstSubFiles` but with
`path: \x7bstartsWith: path\x7d`. -/
def getAllSubFiles (db : List LibFile) (libId : Nat)
    (norm : String → String) (path : String) : List LibFile :=
  db.filter (fun f =>
    f.libraryId == libId && f.removed == false && f.path.startsWith (norm path))

/-! ### Concrete fixtures -/

/-- A persisted anime used by the scan fixtures. -/
def animeA : Anime :=
  { id := 1, name := "A", originalName := "A", bdrip := false, nsfw := false,
    platform := "TV", date := 0, releaseYear := 2020, releaseSeason := "",
    region := "" }

/-- A second persisted anime. -/
def animeB : Anime :=
  { id := 2, name := "B", originalName := "B", bdrip := false, nsfw := false,
    platform := "TV", date := 0, releaseYear := 2020, releaseSeason := "",
    region := "" }

/-- A stale site link whose provider tag has no registered updater. -/
def siteUnknown : Site :=
  { siteId := "u1", siteType := "Unknown", animeId := 1, lastUpdate := none }

/-- A stale Bangumi site link. -/
def siteBangumi1 : Site :=
  { siteId := "b1", siteType := "Bangumi", animeId := 1, lastUpdate := some 0 }

/-- Another stale Bangumi site link. -/
def siteBangumi2 : Site :=
  { siteId := "b2", siteType := "Bangumi", animeId := 1, lastUpdate := some 0 }

/-- A never-updated Bangumi site link. -/
def siteNull : Site :=
  { siteId := "n1", siteType := "Bangumi", animeId := 1, lastUpdate := none }

/-- Fixture: one anime with an unknown-provider stale link followed by a
Bangumi stale link. -/
def db1 : DB := { animes := [animeA], sites := [siteUnknown, siteBangumi1],
                  libFiles := [], nextAnimeId := 3 }

/-- Fixture: one anime with two stale Bangumi links. -/
def db3 : DB := { animes := [animeA], sites := [siteBangumi1, siteBangumi2],
                  libFiles := [], nextAnimeId := 3 }

/-- Fixture: one anime with a single never-updated link. -/
def db5 : DB := { animes := [animeA], sites := [siteNull],
                  libFiles := [], nextAnimeId := 3 }

/-- Fixture: one anime carrying one stale link (`lastUpdate = 0`) and one
fresh link (`lastUpdate = 99`). -/
def db7 : DB :=
  { animes := [animeA],
    sites := [{ siteId := "s1", siteType := "Bangumi", animeId := 1,
                lastUpdate := some 0 },
              { siteId := "s2", siteType := "Bangumi", animeId := 1,
                lastUpdate := some 99 }],
    libFiles := [], nextAnimeId := 3 }

/-- A Bangumi updater that marks every site it can see: if it ran, the
state shows it. -/
def bangumiTouch : Updater := fun _ db =>
  (.ok (), { db with sites := db.sites.map (fun s => { s with lastUpdate := some 99 }) })

/-- A Bangumi updater that throws for site id `"b1"` and marks the state
otherwise. -/
def bangumiFailOnB1 : Updater := fun sid db =>
  if sid == "b1" then (.error "Error: network failure", db)
  else (.ok (), { db with sites := db.sites.map (fun s => { s with lastUpdate := some 99 }) })

/-- A Bangumi updater that succeeds without touching the store. -/
def idUpdater : Updater := fun _ db => (.ok (), db)

/-! ### Scanner theorems -/

/-- Helper for the frame property: if the Bangumi updater never changes
the state, neither does the dispatch loop. -/
theorem dispatchLoop_state_eq (bangumi : Updater)
    (h : ∀ sid d, (bangumi sid d).2 = d) :
    ∀ (sites : List Site) (db : DB), (dispatchLoop bangumi sites db).2 = db := by
  intro sites
  induction sites with
  | nil => intro db; rfl
  | cons s rest ih =>
    intro db
    by_cases hb : s.siteType = "Bangumi"
    · have hg : getInfoUpdater bangumi s.siteType = some bangumi := by
        simp [getInfoUpdater, hb]
      cases hc : bangumi s.siteId db with
      | mk exc db' =>
        have hdb : db' = db := by
          have h2 := h s.siteId db
          rw [hc] at h2
          exact h2
        cases exc with
        | ok u =>
          have hstep : dispatchLoop bangumi (s :: rest) db = dispatchLoop bangumi rest db' := by
            simp [dispatchLoop, hg, hc]
          rw [hstep, hdb]
          exact ih db
        | error e =>
          have hstep : dispatchLoop bangumi (s :: rest) db = (.error e, db') := by
            simp [dispatchLoop, hg, hc]
          rw [hstep, hdb]
    · have hg : getInfoUpdater bangumi s.siteType = none := by
        simp [getInfoUpdater, hb]
      simp [dispatchLoop, hg]

/-- C1: during a staleness scan, a stale link whose provider tag has no
registered updater does *not* get skipped silently: `getInfoUpdater`
returns `undefined` and the unguarded call
`updater.updateRelationAnimes(...)` raises a `TypeError` that halts the
scan; the remaining stale links (here the Bangumi link, whose updater
would have marked the state) are never dispatched and the store is left
untouched. -/
theorem c1_unknown_provider_typeerror :
    updateAllInfo bangumiTouch 10 db1 =
      (.error "TypeError: cannot read updateRelationAnimes of undefined", db1) := rfl

/-- C3 counterexample: when the Bangumi updater throws for the first
stale link of `db3`, `updateAllInfo` returns that very exception — it
propagates to the scan's caller — and the state is unchanged, showing the
second stale link was never dispatched (the updater would have marked
it).  This refutes the claim that the scanner catches the exception per
link and continues. -/
theorem c3_cex :
    updateAllInfo bangumiFailOnB1 10 db3 = (.error "Error: network failure", db3) := rfl

/-- C3 (amended): if the resolved updater's refresh throws for one stale
link, the exception propagates out of the dispatch loop with the state
reached so far, and the remaining stale links are not dispatched. -/
theorem c3_refresh_failure_propagates (bangumi : Updater) (s : Site)
    (rest : List Site) (db : DB) (u : Updater) (e : String) (db' : DB)
    (hu : getInfoUpdater bangumi s.siteType = some u)
    (he : u s.siteId db = (.error e, db')) :
    dispatchLoop bangumi (s :: rest) db = (.error e, db') := by
  simp [dispatchLoop, hu, he]

/-- Witness for `c3_refresh_failure_propagates` at a concrete scan. -/
theorem c3_refresh_failure_propagates_witness :
    dispatchLoop bangumiFailOnB1 [siteBangumi1, siteBangumi2] db3 =
      (.error "Error: network failure", db3) :=
  c3_refresh_failure_propagates bangumiFailOnB1 siteBangumi1 [siteBangumi2]
    db3 bangumiFailOnB1 "Error: network failure" db3 rfl rfl

/-- C5: a never-updated site link is *not* always dispatched.  The DB
query of `updateAllInfo` classifies the `lastUpdate = null` link of `db5`
as needing update for every cutoff (first conjunct, cutoff `-1`), but the
in-memory refilter `site.lastUpdate <= before` coerces `null` to `0`, so
for a cutoff before the Unix epoch the link is dropped from the dispatch
set (second conjunct), while from the epoch onwards it is kept (third
conjunct). -/
theorem c5_null_link_skipped_before_epoch :
    (animeNeedToUpdate db5 (-1)).map (fun p => p.1.id) = [1] ∧
    allSitesOutdated db5 (-1) = [] ∧
    allSitesOutdated db5 0 = [siteNull] :=
  ⟨rfl, rfl, rfl⟩

/-- C7: a site link whose `lastUpdate` is strictly greater than the
cutoff is never in the dispatch set: membership in `allSitesOutdated`
forces `lastUpdate ≤ before`. -/
theorem c7_fresh_never_dispatched (db : DB) (before : Int) (s : Site)
    (h : s ∈ allSitesOutdated db before) (t : Int)
    (ht : s.lastUpdate = some t) : t ≤ before := by
  unfold allSitesOutdated at h
  rw [List.mem_flatMap] at h
  obtain ⟨p, -, hs⟩ := h
  rw [List.mem_filter] at hs
  have h2 := hs.2
  unfold jsOutdated at h2
  rw [ht] at h2
  simpa using h2

/-- Witness for `c7_fresh_never_dispatched`: in `db7` (one entry holding
a stale and a fresh link) the stale link is dispatched and the theorem
applies to it. -/
theorem c7_fresh_never_dispatched_witness :
    ({ siteId := "s1", siteType := "Bangumi", animeId := 1,
       lastUpdate := some 0 } : Site) ∈ allSitesOutdated db7 0 ∧ (0 : Int) ≤ 0 :=
  ⟨by decide,
   c7_fresh_never_dispatched db7 0
     { siteId := "s1", siteType := "Bangumi", animeId := 1, lastUpdate := some 0 }
     (by decide) 0 rfl⟩

/-- C8: the scanner writes nothing itself — if every refresh performed by
the (sole registered) updater leaves the store unchanged, the whole scan
leaves the store unchanged, whatever its outcome; every mutation of a
scan therefore happens inside an updater's refresh call. -/
theorem c8_scanner_writes_nothing (bangumi : Updater) (before : Int)
    (db : DB) (h : ∀ sid d, (bangumi sid d).2 = d) :
    (updateAllInfo bangumi before db).2 = db :=
  dispatchLoop_state_eq bangumi h (allSitesOutdated db before) db

/-- Witness for `c8_scanner_writes_nothing` with a no-op updater on a
concrete store. -/
theorem c8_scanner_writes_nothing_witness :
    (updateAllInfo idUpdater 10 db1).2 = db1 :=
  c8_scanner_writes_nothing idUpdater 10 db1 (fun _ _ => rfl)

/-! ### Reconciler fixtures and theorems -/

/-- A file waiting to be associated. -/
def file10 : LibFile :=
  { id := 10, libraryId := 1, path := "/a", name := "f.mkv",
    animeId := none, removed := false }

/-- The proposed payload of a new anime with two site links, the first of
which will fail to attach under `failStore`. -/
def payloadA : AnimePayload :=
  { name := "A", originalName := "A", bdrip := false, nsfw := false,
    platform := "TV", date := 0, releaseYear := 2020, releaseSeason := "",
    region := "",
    sites := [{ siteId := "bad", siteType := "X" },
              { siteId := "good", siteType := "X" }] }

/-- A `newAnime` item proposing `payloadA` and file 10. -/
def itemC2 : NewAnimeItem := { anime := payloadA, files := [{ id := 10 }] }

/-- Initial store for the reconciler fixtures. -/
def db0 : DB := { animes := [], sites := [], libFiles := [file10], nextAnimeId := 1 }

/-- The store after `itemC2`'s anime has been created in `db0`. -/
def dbA : DB := { animes := [animeA], sites := [], libFiles := [file10], nextAnimeId := 2 }

/-- A store in which attaching the site link with id `"bad"` throws. -/
def failStore : StoreOps :=
  { refOps with
    connectOrCreateSite := fun aid k db =>
      if k.siteId == "bad" then (.error "Error: connection lost", db)
      else refConnectOrCreateSite aid k db }

/-- C2 counterexample: in the batch `[itemC2]` the first site-link attach
fails, and contrary to the claim the remaining link is *not* attempted
and the file association is *not* performed: the final store has the
created anime but no site link at all and file 10 still unassociated. -/
theorem c2_cex :
    (applyNewAnime failStore [itemC2] db0).animes.map Anime.id = [1] ∧
    (applyNewAnime failStore [itemC2] db0).sites = [] ∧
    (applyNewAnime failStore [itemC2] db0).libFiles.map LibFile.animeId = [none] :=
  ⟨rfl, rfl, rfl⟩

/-- C2 (amended): a site-link attach failure aborts the *rest of that
item* — the remaining links are not attempted and the bulk file
association is skipped — but it is caught at the item boundary, so the
batch continues with the following items from the reached state. -/
theorem c2_attach_failure_aborts_item :
    (∀ (ops : StoreOps) (aid : Nat) (l : SiteLinkKey) (rest : List SiteLinkKey)
        (db : DB) (e : String) (db' : DB),
        ops.connectOrCreateSite aid l db = (.error e, db') →
        attachSites ops aid (l :: rest) db = (.error e, db')) ∧
    (∀ (ops : StoreOps) (item : NewAnimeItem) (items : List NewAnimeItem)
        (db : DB) (aid : Nat) (db₁ : DB) (e : String) (db₂ : DB),
        ops.animeCreate item.anime db = (.ok aid, db₁) →
        attachSites ops aid item.anime.sites db₁ = (.error e, db₂) →
        applyNewAnimeItem ops item db = (.error e, db₂) ∧
        applyNewAnime ops (item :: items) db = applyNewAnime ops items db₂) := by
  constructor
  · intro ops aid l rest db e db' h
    simp [attachSites, h]
  · intro ops item items db aid db₁ e db₂ h1 h2
    have hi : applyNewAnimeItem ops item db = (.error e, db₂) := by
      simp [applyNewAnimeItem, h1, h2]
    exact ⟨hi, by simp [applyNewAnime, hi]⟩

/-- Witness for `c2_attach_failure_aborts_item` on the concrete batch. -/
theorem c2_attach_failure_aborts_item_witness :
    applyNewAnimeItem failStore itemC2 db0 = (.error "Error: connection lost", dbA) ∧
    applyNewAnime failStore [itemC2] db0 = applyNewAnime failStore [] dbA :=
  c2_attach_failure_aborts_item.2 failStore itemC2 [] db0 1 dbA
    "Error: connection lost" dbA rfl rfl

/-- A minimal `newAnime` item with the given name and no links/files. -/
def mkNewItem (n : String) : NewAnimeItem :=
  { anime := { name := n, originalName := n, bdrip := false, nsfw := false,
               platform := "", date := 0, releaseYear := 0,
               releaseSeason := "", region := "", sites := [] },
    files := [] }

/-- A ten-item batch whose fourth item collides on the display name with
the first (a duplicate-key conflict at entry creation). -/
def tenBatch : LibraryScrapeResult :=
  { newAnime := ["A", "B", "C", "A", "D", "E", "F", "G", "H", "I"].map mkNewItem,
    existingAnime := [] }

/-- An empty store. -/
def dbEmpty : DB := { animes := [], sites := [], libFiles := [], nextAnimeId := 1 }

/-- C6: per-item failure isolation of the batch apply.  First: for *any*
store behaviour, processing a batch around an item `b` always continues
with the items after `b` from whatever state `b`'s (possibly failing)
processing reached — the per-item catch never escalates to a batch
error, as `applyNewAnime` returns a plain state.  Second: in the
concrete ten-item batch whose fourth item hits a duplicate-key conflict,
the other nine entries are all created. -/
theorem c6_item_failure_isolated :
    (∀ (ops : StoreOps) (xs : List NewAnimeItem) (b : NewAnimeItem)
        (ys : List NewAnimeItem) (db : DB),
        applyNewAnime ops (xs ++ b :: ys) db =
          applyNewAnime ops ys ((applyNewAnimeItem ops b (applyNewAnime ops xs db)).2)) ∧
    (applyLibraryScraperResult refOps tenBatch dbEmpty).animes.map Anime.name =
      ["A", "B", "C", "D", "E", "F", "G", "H", "I"] := by
  constructor
  · intro ops xs b ys db
    simp [applyNewAnime, List.foldl_append]
  · rfl

/-- `refConnectOrCreateSite` never touches the anime table. -/
theorem connect_animes (aid : Nat) (k : SiteLinkKey) (db : DB) :
    ((refConnectOrCreateSite aid k db).2).animes = db.animes := by
  unfold refConnectOrCreateSite
  cases ha : db.animes.any (fun a => a.id == aid) with
  | false => simp [ha]
  | true =>
    cases hf : db.sites.find? (keyMatch k) <;> simp [ha, hf]

/-- Connecting does not change whether a site matches the unique key. -/
theorem connectSite_keyMatch (k : SiteLinkKey) (aid : Nat) (s : Site) :
    keyMatch k (connectSite k aid s) = keyMatch k s := by
  unfold connectSite
  cases h : keyMatch k s with
  | false => simp [h]
  | true => simp only [h, if_true]; exact h

/-- After a connect-or-create against an existing anime, exactly one site
matches the unique key (assuming the store's uniqueness invariant). -/
theorem connect_count (aid : Nat) (k : SiteLinkKey) (db : DB)
    (ha : db.animes.any (fun a => a.id == aid) = true)
    (hk : (db.sites.filter (keyMatch k)).length ≤ 1) :
    (((refConnectOrCreateSite aid k db).2).sites.filter (keyMatch k)).length = 1 := by
  unfold refConnectOrCreateSite
  cases hf : db.sites.find? (keyMatch k) with
  | none =>
    have hnone := List.find?_eq_none.mp hf
    have hnil : db.sites.filter (keyMatch k) = [] := by
      rw [List.filter_eq_nil_iff]
      intro a hmem
      simpa using hnone a hmem
    simp [ha, hf, List.filter_append, hnil, keyMatch]
  | some s₀ =>
    have hmem := List.mem_of_find?_eq_some hf
    have hkm := List.find?_some hf
    have hmap : (db.sites.map (connectSite k aid)).filter (keyMatch k) =
        (db.sites.filter (keyMatch k)).map (connectSite k aid) := by
      rw [List.filter_map]
      congr 1
      apply List.filter_congr
      intro x _
      simp [Function.comp, connectSite_keyMatch]
    have hpos : 0 < (db.sites.filter (keyMatch k)).length :=
      List.length_pos_of_mem (List.mem_filter.mpr ⟨hmem, hkm⟩)
    simp only [ha, hf, if_true]
    simp only [hmap, List.length_map]
    omega

/-- After a connect-or-create against an existing anime, every site
matching the unique key is owned by that anime. -/
theorem connect_owner (aid : Nat) (k : SiteLinkKey) (db : DB)
    (ha : db.animes.any (fun a => a.id == aid) = true) :
    ∀ s ∈ ((refConnectOrCreateSite aid k db).2).sites,
      keyMatch k s = true → s.animeId = aid := by
  unfold refConnectOrCreateSite
  cases hf : db.sites.find? (keyMatch k) with
  | none =>
    have hnone := List.find?_eq_none.mp hf
    intro s hs hks
    simp only [ha, hf, if_true] at hs
    rw [List.mem_append] at hs
    rcases hs with hs | hs
    · exact absurd hks (by simpa using hnone s hs)
    · rw [List.mem_singleton] at hs
      subst hs
      rfl
  | some s₀ =>
    intro s hs hks
    simp only [ha, hf, if_true] at hs
    rw [List.mem_map] at hs
    obtain ⟨x, _, hsx⟩ := hs
    subst hsx
    unfold connectSite at hks ⊢
    cases hkx : keyMatch k x with
    | true => simp [hkx]
    | false =>
      rw [if_neg (by simp [hkx])] at hks
      rw [hks] at hkx
      cases hkx

/-- Fixture: two persisted anime, with the site link `(X, T)` owned by
anime 1. -/
def db4 : DB :=
  { animes := [animeA, animeB],
    sites := [{ siteId := "X", siteType := "T", animeId := 1, lastUpdate := none }],
    libFiles := [], nextAnimeId := 3 }

/-- C4 counterexample: in `db4` the site link `(X, T)` is owned by anime
1; attaching the same natural key while reconciling anime 2 leaves a
single record (no duplicate) but *reassigns* its owner to anime 2,
contrary to the claim that the existing association is left unchanged. -/
theorem c4_cex :
    db4.sites.map Site.animeId = [1] ∧
    (attachSites refOps 2 [{ siteId := "X", siteType := "T" }] db4).2.sites.map
      Site.animeId = [2] ∧
    (attachSites refOps 2 [{ siteId := "X", siteType := "T" }] db4).2.sites.length = 1 :=
  ⟨rfl, rfl, rfl⟩

/-- C4 (amended): the site-link attach is an upsert keyed by
`(siteId, siteType)` that never duplicates — after one or two attaches
of the same key exactly one matching record exists — but when the key
already exists the record is *connected* to the new entry: its owning
association is reassigned to `aid`, not left unchanged. -/
theorem c4_upsert_reassigns_owner (aid : Nat) (k : SiteLinkKey) (db : DB)
    (ha : db.animes.any (fun a => a.id == aid) = true)
    (hk : (db.sites.filter (keyMatch k)).length ≤ 1) :
    (((refConnectOrCreateSite aid k db).2).sites.filter (keyMatch k)).length = 1 ∧
    (∀ s ∈ ((refConnectOrCreateSite aid k db).2).sites,
      keyMatch k s = true → s.animeId = aid) ∧
    (((refConnectOrCreateSite aid k
        ((refConnectOrCreateSite aid k db).2)).2).sites.filter (keyMatch k)).length = 1 := by
  have h1 := connect_count aid k db ha hk
  refine ⟨h1, connect_owner aid k db ha, ?_⟩
  have ha' : ((refConnectOrCreateSite aid k db).2).animes.any
      (fun a => a.id == aid) = true := by
    rw [connect_animes]; exact ha
  exact connect_count aid k _ ha' (le_of_eq h1)

/-- Witness for `c4_upsert_reassigns_owner` on the concrete store. -/
theorem c4_upsert_reassigns_owner_witness :
    (((refConnectOrCreateSite 2 { siteId := "X", siteType := "T" } db4).2).sites.filter
      (keyMatch { siteId := "X", siteType := "T" })).length = 1 ∧
    (∀ s ∈ ((refConnectOrCreateSite 2 { siteId := "X", siteType := "T" } db4).2).sites,
      keyMatch { siteId := "X", siteType := "T" } s = true → s.animeId = 2) ∧
    (((refConnectOrCreateSite 2 { siteId := "X", siteType := "T" }
        ((refConnectOrCreateSite 2 { siteId := "X", siteType := "T" } db4).2)).2).sites.filter
      (keyMatch { siteId := "X", siteType := "T" })).length = 1 :=
  c4_upsert_reassigns_owner 2 { siteId := "X", siteType := "T" } db4
    (by decide) (by decide)

/-! ### User manager and library reader theorems -/

/-- A store update that always fails with a non-Prisma-known error. -/
def updateFail : Nat → UserUpdateData → Except PrismaError Unit :=
  fun _ _ => .error (.other "ECONNREFUSED")

/-- A trivial password hash used by the witnesses. -/
def hashId : String → String := fun s => s

/-- C9: for a valid new password, when the store update fails,
`changePassword` surfaces only a Prisma known-request error with code
`"P2025"` (as `UserNotFoundError`); every other store error is swallowed
and the call returns normally, as if the change had succeeded. -/
theorem c9_swallowed_store_errors
    (update : Nat → UserUpdateData → Except PrismaError Unit)
    (hash : String → String) (uid : Nat) (p : String)
    (hp : isSecurePassword p = true) (e : PrismaError)
    (he : update uid { encryption := "Sha256", password := hash p } = .error e) :
    (changePassword update hash uid p = .ok () ↔ e ≠ .known "P2025") ∧
    (changePassword update hash uid p = .error .UserNotFoundError ↔
      e = .known "P2025") := by
  unfold changePassword
  rw [hp]
  simp only [Bool.true_eq_false, if_false, he]
  cases e with
  | known code =>
    by_cases hc : code = "P2025"
    · subst hc
      simp
    · simp [hc]
  | other m => simp

/-- Witness for `c9_swallowed_store_errors`: a connection error during
the update is swallowed and the call reports success. -/
theorem c9_swallowed_store_errors_witness :
    isSecurePassword "abcdefg" = true ∧
    changePassword updateFail hashId 1 "abcdefg" = .ok () :=
  ⟨by decide,
   (c9_swallowed_store_errors updateFail hashId 1 "abcdefg" (by decide)
      (.other "ECONNREFUSED") rfl).1.mpr (by decide)⟩

/-- A live file of library 1 under path `/a`. -/
def fileW : LibFile :=
  { id := 1, libraryId := 1, path := "/a", name := "b", animeId := none,
    removed := false }

/-- A soft-deleted file of library 1. -/
def fileRemoved : LibFile :=
  { id := 2, libraryId := 1, path := "/a", name := "c", animeId := none,
    removed := true }

/-- A live file of another library. -/
def fileOtherLib : LibFile :=
  { id := 3, libraryId := 2, path := "/a", name := "d", animeId := none,
    removed := false }

/-- A file table mixing live, removed and foreign-library files. -/
def dbW : List LibFile := [fileW, fileRemoved, fileOtherLib]

/-- C10: every read operation of `LibraryReader` only returns files that
are not soft-deleted and belong to the reader's own library, for every
store, path argument and path-normalization behaviour. -/
theorem c10_reader_scope (db : List LibFile) (libId : Nat)
    (parse : String → String × String) (norm : String → String)
    (path : String) (f : LibFile) :
    (getFile db libId parse path = some f →
      f.removed = false ∧ f.libraryId = libId) ∧
    (f ∈ getFirstSubFiles db libId norm path →
      f.removed = false ∧ f.libraryId = libId) ∧
    (f ∈ getFirstSubFilesWithNoAnime db libId norm path →
      f.removed = false ∧ f.libraryId = libId) ∧
    (f ∈ getAllSubFiles db libId norm path →
      f.removed = false ∧ f.libraryId = libId) := by
  refine ⟨?_, ?_, ?_, ?_⟩
  · intro h
    have hp := List.find?_some h
    simp only [Bool.and_eq_true, beq_iff_eq] at hp
    exact ⟨hp.2, hp.1.1.1⟩
  · intro h
    have hp := (List.mem_filter.mp h).2
    simp only [Bool.and_eq_true, beq_iff_eq] at hp
    exact ⟨hp.1.2, hp.1.1⟩
  · intro h
    have hp := (List.mem_filter.mp h).2
    simp only [Bool.and_eq_true, beq_iff_eq] at hp
    exact ⟨hp.1.1.2, hp.1.1.1⟩
  · intro h
    have hp := (List.mem_filter.mp h).2
    simp only [Bool.and_eq_true, beq_iff_eq] at hp
    exact ⟨hp.1.2, hp.1.1⟩

/-- Witness for `c10_reader_scope`: the live same-library file is
returned by `getFirstSubFiles` on `dbW` and the theorem applies to it. -/
theorem c10_reader_scope_witness :
    fileW ∈ getFirstSubFiles dbW 1 (fun s => s) "/a" ∧
    fileW.removed = false ∧ fileW.libraryId = 1 :=
  ⟨by decide,
   (c10_reader_scope dbW 1 (fun _ => ("/a", "b")) (fun s => s) "/a" fileW).2.1
     (by decide)⟩

end LavaAnime
